import Mathlib

/-!
Verification of the dump-tree materializer core of dbfs (src/source/helper.cpp).

The helper functions are embedded shallowly.  Stateful, effectful code is
modelled as a function from the inputs (plus an oracle describing the outcomes
of the filesystem calls it makes) to an execution: the ordered list of
observable events it emits (log lines, file creations, attribute settings, the
kill signal, an assertion failure) together with a flag saying whether the
process terminated during the call.  Sequencing two executions propagates
termination: once the process is dead, nothing later runs.
-/

set_option autoImplicit false

/-- Observable events of the materializer: diagnostics printed through
PrintMsg, a file created by fopen with mode w+, an extended attribute set by
setxattr, the SIGHUP self-kill, and a failed C assert. -/
inductive Event where
  | log (msg : String)
  | fileCreated (path : String)
  | xattrSet (path : String)
  | killed
  | assertFailed
  deriving DecidableEq, Repr

/-- An execution: the events emitted, and whether the process terminated. -/
abbrev Exec := List Event × Bool

/-- The empty execution: no events, process alive. -/
def skipE : Exec := ([], false)

/-- Sequencing of executions.  If the first one terminated the process, the
second never runs. -/
def seqE (a b : Exec) : Exec :=
  if a.2 then a else (a.1 ++ b.1, b.2)

/-- Modelled from the spec: KillSelf (helper.cpp lines 435-441) sends SIGHUP
to the own process; the SIGHUP handler (DestroySQLFs, installed by repository
code that is not under src/) exits the program after unmounting.  Per the spec
it never returns, so the modelled execution is terminated. -/
def KillSelfE : Exec := ([Event.killed], true)

/-- The C assert macro, taken as active (no NDEBUG): on a false condition the
process aborts. -/
def assertE (cond : Bool) : Exec :=
  if cond then skipE else ([Event.assertFailed], true)

/-- Model of strerror: renders an errno value as text for a log line.  The
concrete wording is immaterial to all claims. -/
def strerror (e : Int) : String := toString e

/-- Outcome of a getxattr call as the filesystem decides it: the attribute
exists with a value of the given size, or the attribute is absent, or the
call fails with some other errno. -/
inductive XattrResult where
  | size (n : Nat)
  | absent
  | failure (e : Int)
  deriving DecidableEq, Repr

/-- The int getxattr hands back to the caller: the value size on success, -1
on absence and on every other failure, per the POSIX contract. -/
def xattrRet : XattrResult → Int
  | XattrResult.size n => (n : Int)
  | XattrResult.absent => -1
  | XattrResult.failure _ => -1

/-- Outcomes of the filesystem calls the materializer performs, one oracle
entry per call kind, keyed by path.  For the creation calls a result of 0
means success and a nonzero value is the errno the call failed with. -/
structure FSOracle where
  fopenErr : String → Int
  setxattrErr : String → Int
  mkdirErrno : String → Int
  getxattr : String → XattrResult

/-- An oracle on which every creation call succeeds and no extended attribute
exists anywhere. -/
def fsAllOk : FSOracle :=
  { fopenErr := fun _ => 0
    setxattrErr := fun _ => 0
    mkdirErrno := fun _ => 0
    getxattr := fun _ => XattrResult.absent }

/-- CalculateDumpPath (helper.cpp lines 26-31): concatenates the configured
dump directory path with the mount-relative path.  The global
g_UserPaths.m_dumpPath is the first argument. -/
def CalculateDumpPath (dumpPath : String) (path : String) : String :=
  dumpPath ++ path

/-- A server registry record, as stored in g_ServerInfoMap. -/
structure ServerInfo where
  m_hostname : String
  m_username : String
  m_password : String
  m_customQueriesPath : String
  deriving DecidableEq, Repr

/-- GetServerDetails (helper.cpp lines 147-167).  The in-memory map
g_ServerInfoMap is the first argument; the three by-reference output
parameters are modelled by returning their final values alongside the
execution.  On a hit the outputs are overwritten from the record and nothing
is emitted; on a miss the function prints the unknown-server message and calls
KillSelf, writing none of the outputs. -/
def GetServerDetails (m : List (String × ServerInfo))
    (servername hostname username password : String) :
    (String × String × String) × Exec :=
  match m.lookup servername with
  | some si => ((si.m_hostname, si.m_username, si.m_password), skipE)
  | none =>
      ((hostname, username, password),
       seqE ([Event.log ("Unknown server " ++ servername)], false) KillSelfE)

/-- CreateFile (helper.cpp lines 182-215): fopen(path, w+) then fclose, then
setxattr of the provenance attribute g_LocallyGeneratedFiles.  Either failure
is logged with the path and the strerror text and escalates through KillSelf;
the setxattr block only runs if the fopen block did not terminate the
process. -/
def CreateFile (fs : FSOracle) (path : String) : Exec :=
  seqE
    (if fs.fopenErr path = 0 then ([Event.fileCreated path], false)
     else
       seqE ([Event.log ("Error creating file " ++ path ++ " " ++
                          strerror (fs.fopenErr path))], false) KillSelfE)
    (if fs.setxattrErr path = 0 then ([Event.xattrSet path], false)
     else
       seqE ([Event.log ("Error setting extended attributes for file " ++
                          path ++ " : " ++
                          strerror (fs.setxattrErr path))], false) KillSelfE)

/-- IsDbfsFile (helper.cpp lines 227-253): translates the path into the dump
directory, queries the provenance attribute with getxattr, and reports a dbfs
file exactly when the returned length is nonnegative. -/
def IsDbfsFile (fs : FSOracle) (dumpPath : String) (path : String) : Bool :=
  decide (0 ≤ xattrRet (fs.getxattr (CalculateDumpPath dumpPath path)))

/-- Modelled from the spec: CreateCustomQueriesOutputFiles is repository code
not under src/; per the spec it creates, for every custom-query name
configured for this server, one empty placeholder file inside the folder,
tagging each through the CreateFile path. -/
def CreateCustomQueriesOutputFiles (fs : FSOracle) (customQueries : List String)
    (folderPath : String) : Exec :=
  customQueries.foldl
    (fun acc q => seqE acc (CreateFile fs (folderPath ++ "/" ++ q))) skipE

/-- Modelled from the spec: LINUX_PATH_DELIM is defined in a header not under
src/; its use between directory components fixes it as the slash. -/
def LINUX_PATH_DELIM : String := "/"

/-- Modelled from the spec: CUSTOM_QUERY_FOLDER_NAME is the fixed name of the
custom-query subdirectory, defined in a header not under src/.  No claim
depends on the concrete string. -/
def CUSTOM_QUERY_FOLDER_NAME : String := "customQueries"

/-- CreateCustomQueriesDir (helper.cpp lines 266-290): mkdir of the fixed-name
custom query folder under the server dump directory; on success populate it,
on failure only log the mkdir error — no escalation. -/
def CreateCustomQueriesDir (fs : FSOracle) (customQueries : List String)
    (dumpDir : String) : Exec :=
  if fs.mkdirErrno (dumpDir ++ LINUX_PATH_DELIM ++ CUSTOM_QUERY_FOLDER_NAME) = 0 then
    CreateCustomQueriesOutputFiles fs customQueries
      (dumpDir ++ LINUX_PATH_DELIM ++ CUSTOM_QUERY_FOLDER_NAME)
  else
    ([Event.log ("mkdir failed for " ++
        (dumpDir ++ LINUX_PATH_DELIM ++ CUSTOM_QUERY_FOLDER_NAME) ++ "- " ++
        strerror (fs.mkdirErrno
          (dumpDir ++ LINUX_PATH_DELIM ++ CUSTOM_QUERY_FOLDER_NAME)))], false)

/-- Modelled from the spec: Split is repository code not under src/; per the
spec the raw catalog result is tokenised into rows split on newline.
Auxiliary recursion over the character list. -/
def splitCh : List Char → List (List Char)
  | [] => [[]]
  | c :: cs =>
      if c = '\n' then [] :: splitCh cs
      else
        match splitCh cs with
        | [] => [[c]]
        | r :: rs => (c :: r) :: rs

/-- Modelled from the spec: Split of the response string on the newline
character. -/
def Split (s : String) : List String :=
  (splitCh s.data).map fun l => String.mk l

/-- The body of the CreateDMVFiles loop (helper.cpp lines 351-370) for the
entries after the skipped index 0: for each name, create the TSV placeholder
dumpDir/name (StringFormat with a slash between the two parts), and when the
server version is at least 16 additionally create the json sibling obtained by
appending .json to the same filepath. -/
def dmvLoop (fs : FSOracle) (dumpDir : String) (version : Int) :
    List String → Exec
  | [] => skipE
  | name :: rest =>
      seqE
        (seqE (CreateFile fs (dumpDir ++ "/" ++ name))
          (if 16 ≤ version then
             CreateFile fs (dumpDir ++ "/" ++ name ++ ".json")
           else skipE))
        (dmvLoop fs dumpDir version rest)

/-- CreateDMVFiles (helper.cpp lines 309-372).  The ExecuteQuery call is an
external collaborator (CatalogClient); its outcome is passed in as the error
flag together with the raw response string.  On query error only a log line is
emitted.  Otherwise the response is split on newlines, the C assert
numEntries greater than 1 runs, and the loop creates one placeholder per entry
after the first (index 0, the column-name header, is skipped by the continue
statement; the recursion over the tail models exactly that). -/
def CreateDMVFiles (fs : FSOracle) (dumpDir : String)
    (queryError : Bool) (responseString : String) (version : Int) : Exec :=
  if queryError then
    ([Event.log "Failed to query DMV list"], false)
  else
    seqE (assertE (decide (1 < (Split responseString).length)))
      (dmvLoop fs dumpDir version (Split responseString).tail)

/-- CreateDbfsFiles (helper.cpp lines 386-419): compute the server root as the
dump path of the server name, mkdir it, on success create the custom-query
subtree and then the DMV files; on any mkdir failure log twice and KillSelf. -/
def CreateDbfsFiles (fs : FSOracle) (dumpRoot : String)
    (customQueries : List String) (servername : String)
    (queryError : Bool) (responseString : String) (version : Int) : Exec :=
  if fs.mkdirErrno (CalculateDumpPath dumpRoot servername) = 0 then
    seqE
      (CreateCustomQueriesDir fs customQueries
        (CalculateDumpPath dumpRoot servername))
      (CreateDMVFiles fs (CalculateDumpPath dumpRoot servername)
        queryError responseString version)
  else
    seqE
      ([Event.log ("mkdir failed for " ++
          CalculateDumpPath dumpRoot servername ++ "- " ++
          strerror (fs.mkdirErrno (CalculateDumpPath dumpRoot servername))),
        Event.log ("There was an error creating the folders to hold the " ++
          "server DMV files. Exiting.")], false)
      KillSelfE

/-- The paths of the files an execution created, in creation order. -/
def createdFiles (events : List Event) : List String :=
  events.filterMap fun e =>
    match e with
    | Event.fileCreated p => some p
    | _ => none

/-- The errno value EEXIST on Linux. -/
def EEXIST : Int := 17

/-- An oracle on which everything succeeds except the fopen of the first DMV
placeholder of the concrete scenario below, which fails with EACCES. -/
def fsFileAFail : FSOracle :=
  { fsAllOk with fopenErr := fun p => if p = "/d/s1/a" then 13 else 0 }

/-- An oracle on which every mkdir fails with EACCES and everything else
succeeds. -/
def fsRootFail : FSOracle :=
  { fsAllOk with mkdirErrno := fun _ => 13 }

/-- An oracle on which the mkdir of the custom-query folder of the concrete
scenario below fails with EACCES and everything else succeeds. -/
def fsCustomFail : FSOracle :=
  { fsAllOk with
      mkdirErrno := fun p => if p = "/d/s1/customQueries" then 13 else 0 }

/-! ## Helper lemmas -/

/-- A terminated execution absorbs anything sequenced after it. -/
theorem seqE_dead {a : Exec} (h : a.2 = true) (b : Exec) : seqE a b = a := by
  simp [seqE, h]

/-- The version only reaches the json branch; any version at least 16 behaves
like version 16. -/
theorem dmvLoop_ge16 (fs : FSOracle) (d : String) {v : Int} (h : 16 ≤ v) :
    ∀ l : List String, dmvLoop fs d v l = dmvLoop fs d 16 l := by
  intro l
  induction l with
  | nil => rfl
  | cons a t ih =>
      simp only [dmvLoop, ih, if_pos h]
      norm_num

/-- Any version below 16 behaves like version 15. -/
theorem dmvLoop_lt16 (fs : FSOracle) (d : String) {v : Int} (h : v < 16) :
    ∀ l : List String, dmvLoop fs d v l = dmvLoop fs d 15 l := by
  intro l
  induction l with
  | nil => rfl
  | cons a t ih =>
      simp only [dmvLoop, ih, if_neg (not_le.mpr h)]
      norm_num

theorem CreateDMVFiles_ge16 (fs : FSOracle) (d : String) (qe : Bool)
    (resp : String) {v : Int} (h : 16 ≤ v) :
    CreateDMVFiles fs d qe resp v = CreateDMVFiles fs d qe resp 16 := by
  cases qe <;> simp only [CreateDMVFiles, dmvLoop_ge16 fs d h]

theorem CreateDMVFiles_lt16 (fs : FSOracle) (d : String) (qe : Bool)
    (resp : String) {v : Int} (h : v < 16) :
    CreateDMVFiles fs d qe resp v = CreateDMVFiles fs d qe resp 15 := by
  cases qe <;> simp only [CreateDMVFiles, dmvLoop_lt16 fs d h]

/-! ## Claims -/

/-- Claim C6: for every mount-relative path P, the path translation returns
exactly the concatenation of the configured dump root with P; for a fixed
dump root the mapping is injective (no normalization collapses two distinct
inputs). -/
theorem C6_dump_path_concat (dumpRoot P : String) :
    CalculateDumpPath dumpRoot P = dumpRoot ++ P ∧
    ∀ Q : String, CalculateDumpPath dumpRoot Q = CalculateDumpPath dumpRoot P →
      Q = P := by
  refine ⟨rfl, fun Q h => ?_⟩
  have h2 : (dumpRoot ++ Q).data = (dumpRoot ++ P).data := congrArg String.data h
  simp only [String.data_append] at h2
  have h3 : Q.data = P.data := List.append_cancel_left h2
  cases Q; cases P; simp_all

/-- Witness for C6 at a concrete dump root and path. -/
theorem C6_witness :
    CalculateDumpPath "/var/opt/mssql/dump" "/srv1/a" =
      "/var/opt/mssql/dump" ++ "/srv1/a" ∧ ("/srv1/a" : String) = "/srv1/a" :=
  ⟨(C6_dump_path_concat "/var/opt/mssql/dump" "/srv1/a").1,
   (C6_dump_path_concat "/var/opt/mssql/dump" "/srv1/a").2 "/srv1/a" rfl⟩

/-- Claim C4: the fatal-escalation operation never returns: anything
sequenced after a KillSelf call in any caller is never executed, so each
call site is a divergent control path. -/
theorem C4_killself_diverges : ∀ k : Exec, seqE KillSelfE k = KillSelfE := by
  intro k
  rfl

/-- Claim C9: IsDbfsFile reports true exactly when the provenance attribute
exists on the dump-path file, whatever the size of its value; absence and
every other getxattr failure both yield false. -/
theorem C9_isdbfsfile_iff_attr (fs : FSOracle) (dumpPath path : String) :
    IsDbfsFile fs dumpPath path = true ↔
      ∃ n : Nat,
        fs.getxattr (CalculateDumpPath dumpPath path) = XattrResult.size n := by
  cases h : fs.getxattr (CalculateDumpPath dumpPath path) with
  | size n => simp [IsDbfsFile, h, xattrRet]
  | absent => simp [IsDbfsFile, h, xattrRet]
  | failure e => simp [IsDbfsFile, h, xattrRet]

/-- Claim C8: a lookup of a server name absent from the registry logs the
unknown-server message and escalates through KillSelf, terminating the
process instead of returning an error value. -/
theorem C8_unknown_server_fatal (m : List (String × ServerInfo))
    (servername hostname username password : String)
    (h : m.lookup servername = none) :
    (GetServerDetails m servername hostname username password).2 =
      ([Event.log ("Unknown server " ++ servername), Event.killed], true) := by
  simp only [GetServerDetails, h]
  rfl

/-- Witness for C8: the empty registry at a concrete name. -/
theorem C8_witness :
    (GetServerDetails [] "srv" "h0" "u0" "p0").2 =
      ([Event.log ("Unknown server " ++ "srv"), Event.killed], true) :=
  C8_unknown_server_fatal [] "srv" "h0" "u0" "p0" rfl

/-- Claim C10: on a miss, GetServerDetails writes none of its three output
parameters: the returned output values are exactly the ones passed in. -/
theorem C10_unknown_server_frame (m : List (String × ServerInfo))
    (servername hostname username password : String)
    (h : m.lookup servername = none) :
    (GetServerDetails m servername hostname username password).1 =
      (hostname, username, password) := by
  simp only [GetServerDetails, h]

/-- Witness for C10: the empty registry at concrete inputs. -/
theorem C10_witness :
    (GetServerDetails [] "other" "hh" "uu" "pp").1 = ("hh", "uu", "pp") :=
  C10_unknown_server_frame [] "other" "hh" "uu" "pp" rfl

/-- Claim C1 counterexample: with the fopen of placeholder a failing, DMV
materialization terminates the process (KillSelf is reached) and the
remaining catalog item b is never attempted — the creation loop does abort,
contrary to the claim. -/
theorem C1_counterexample :
    (CreateDMVFiles fsFileAFail "/d/s1" false "ColumnName\na\nb" 15).2 = true ∧
    Event.killed ∈
      (CreateDMVFiles fsFileAFail "/d/s1" false "ColumnName\na\nb" 15).1 ∧
    Event.fileCreated "/d/s1/b" ∉
      (CreateDMVFiles fsFileAFail "/d/s1" false "ColumnName\na\nb" 15).1 := by
  decide

/-- Claim C1 as amended: a placeholder-file creation failure is logged with
the offending path and errno detail, but it is fatal: CreateFile escalates
through KillSelf, so the process terminates and nothing sequenced after the
failing creation — the rest of the loop included — is executed. -/
theorem C1_create_failure_fatal (fs : FSOracle) (path : String)
    (h : fs.fopenErr path ≠ 0) :
    CreateFile fs path =
      ([Event.log ("Error creating file " ++ path ++ " " ++
          strerror (fs.fopenErr path)), Event.killed], true) ∧
    ∀ k : Exec, seqE (CreateFile fs path) k = CreateFile fs path := by
  have h1 : CreateFile fs path =
      ([Event.log ("Error creating file " ++ path ++ " " ++
          strerror (fs.fopenErr path)), Event.killed], true) := by
    simp only [CreateFile, if_neg h]
    rfl
  exact ⟨h1, fun k => by rw [h1]; rfl⟩

/-- Witness for the amended C1 at a concrete failing path. -/
theorem C1_witness :
    CreateFile fsFileAFail "/d/s1/a" =
      ([Event.log ("Error creating file " ++ "/d/s1/a" ++ " " ++
          strerror (fsFileAFail.fopenErr "/d/s1/a")), Event.killed], true) :=
  (C1_create_failure_fatal fsFileAFail "/d/s1/a" (by decide)).1

/-- Claim C2 counterexample: on a header-only catalog result the code does
not log the degeneracy and return; the assert on the row count fails and the
process aborts — a fatal escalation. -/
theorem C2_counterexample :
    CreateDMVFiles fsAllOk "/d/s1" false "ColumnName" 15 =
      ([Event.assertFailed], true) ∧
    (CreateDMVFiles fsAllOk "/d/s1" false "ColumnName" 15).2 = true := by
  decide

/-- Claim C2 as amended: for every catalog result whose newline-split row
count is not strictly greater than one, materialization creates zero DMV
placeholder files, but instead of logging and returning, the assert that the
row count exceeds one fails and the process aborts. -/
theorem C2_degenerate_assert_aborts (fs : FSOracle) (dumpDir : String)
    (responseString : String) (version : Int)
    (h : (Split responseString).length ≤ 1) :
    CreateDMVFiles fs dumpDir false responseString version =
      ([Event.assertFailed], true) ∧
    createdFiles
      (CreateDMVFiles fs dumpDir false responseString version).1 = [] := by
  have hlt : ¬ 1 < (Split responseString).length := by omega
  have h1 : CreateDMVFiles fs dumpDir false responseString version =
      ([Event.assertFailed], true) := by
    simp only [CreateDMVFiles, decide_eq_false hlt, Bool.false_eq_true,
      if_false]
    rfl
  exact ⟨h1, by rw [h1]; rfl⟩

/-- Witness for the amended C2 at a concrete header-only result. -/
theorem C2_witness :
    CreateDMVFiles fsAllOk "/dd" false "ColumnName" 16 =
      ([Event.assertFailed], true) :=
  (C2_degenerate_assert_aborts fsAllOk "/dd" "ColumnName" 16 (by decide)).1

/-- Claim C3: for the catalog rows ColumnName, a, b with every creation
succeeding, materialization never escalates, creates exactly the files a and
b when the version is below 16 (nothing for the header row, no json
siblings), and exactly a, a.json, b, b.json when the version is at least
16. -/
theorem C3_dmv_files_by_version (version : Int) :
    (CreateDMVFiles fsAllOk "/d/s1" false "ColumnName\na\nb" version).2 =
      false ∧
    createdFiles
      (CreateDMVFiles fsAllOk "/d/s1" false "ColumnName\na\nb" version).1 =
      if 16 ≤ version then
        ["/d/s1/a", "/d/s1/a.json", "/d/s1/b", "/d/s1/b.json"]
      else ["/d/s1/a", "/d/s1/b"] := by
  by_cases h : (16 : Int) ≤ version
  · rw [CreateDMVFiles_ge16 fsAllOk "/d/s1" false "ColumnName\na\nb" h,
      if_pos h]
    exact ⟨by decide, by decide⟩
  · rw [CreateDMVFiles_lt16 fsAllOk "/d/s1" false "ColumnName\na\nb"
      (not_le.mp h), if_neg h]
    exact ⟨by decide, by decide⟩

/-- Claim C5: if the mkdir of the server root fails with any errno other
than EEXIST, CreateDbfsFiles logs twice and escalates through KillSelf, and
no DMV placeholder and no custom-query file is created for that server. -/
theorem C5_root_mkdir_failure_fatal (fs : FSOracle) (dumpRoot : String)
    (customQueries : List String) (servername : String)
    (queryError : Bool) (responseString : String) (version : Int)
    (h : fs.mkdirErrno (CalculateDumpPath dumpRoot servername) ≠ 0)
    (_hnex : fs.mkdirErrno (CalculateDumpPath dumpRoot servername) ≠ EEXIST) :
    CreateDbfsFiles fs dumpRoot customQueries servername queryError
        responseString version =
      ([Event.log ("mkdir failed for " ++
          CalculateDumpPath dumpRoot servername ++ "- " ++
          strerror (fs.mkdirErrno (CalculateDumpPath dumpRoot servername))),
        Event.log ("There was an error creating the folders to hold the " ++
          "server DMV files. Exiting."),
        Event.killed], true) ∧
    createdFiles (CreateDbfsFiles fs dumpRoot customQueries servername
        queryError responseString version).1 = [] := by
  have h1 : CreateDbfsFiles fs dumpRoot customQueries servername queryError
      responseString version =
      ([Event.log ("mkdir failed for " ++
          CalculateDumpPath dumpRoot servername ++ "- " ++
          strerror (fs.mkdirErrno (CalculateDumpPath dumpRoot servername))),
        Event.log ("There was an error creating the folders to hold the " ++
          "server DMV files. Exiting."),
        Event.killed], true) := by
    simp only [CreateDbfsFiles, if_neg h]
    rfl
  exact ⟨h1, by rw [h1]; rfl⟩

/-- Witness for C5 at a concrete EACCES root failure. -/
theorem C5_witness :
    CreateDbfsFiles fsRootFail "/d/" [] "s1" false "ColumnName\na\nb" 15 =
      ([Event.log ("mkdir failed for " ++ CalculateDumpPath "/d/" "s1" ++
          "- " ++
          strerror (fsRootFail.mkdirErrno (CalculateDumpPath "/d/" "s1"))),
        Event.log ("There was an error creating the folders to hold the " ++
          "server DMV files. Exiting."),
        Event.killed], true) ∧
    createdFiles (CreateDbfsFiles fsRootFail "/d/" [] "s1" false
        "ColumnName\na\nb" 15).1 = [] :=
  C5_root_mkdir_failure_fatal fsRootFail "/d/" [] "s1" false
    "ColumnName\na\nb" 15 (by decide) (by decide)

/-- Claim C7: a failing mkdir of the custom-query subdirectory is only
logged — the custom-query step produces nothing further, the process stays
alive — and CreateDbfsFiles still runs the DMV placeholder creation for the
same server afterwards. -/
theorem C7_custom_dir_failure_nonfatal (fs : FSOracle) (dumpRoot : String)
    (customQueries : List String) (servername : String)
    (queryError : Bool) (responseString : String) (version : Int)
    (hroot : fs.mkdirErrno (CalculateDumpPath dumpRoot servername) = 0)
    (hcust : fs.mkdirErrno (CalculateDumpPath dumpRoot servername ++
        LINUX_PATH_DELIM ++ CUSTOM_QUERY_FOLDER_NAME) ≠ 0) :
    CreateCustomQueriesDir fs customQueries
        (CalculateDumpPath dumpRoot servername) =
      ([Event.log ("mkdir failed for " ++
          (CalculateDumpPath dumpRoot servername ++ LINUX_PATH_DELIM ++
            CUSTOM_QUERY_FOLDER_NAME) ++ "- " ++
          strerror (fs.mkdirErrno (CalculateDumpPath dumpRoot servername ++
            LINUX_PATH_DELIM ++ CUSTOM_QUERY_FOLDER_NAME)))], false) ∧
    CreateDbfsFiles fs dumpRoot customQueries servername queryError
        responseString version =
      (Event.log ("mkdir failed for " ++
          (CalculateDumpPath dumpRoot servername ++ LINUX_PATH_DELIM ++
            CUSTOM_QUERY_FOLDER_NAME) ++ "- " ++
          strerror (fs.mkdirErrno (CalculateDumpPath dumpRoot servername ++
            LINUX_PATH_DELIM ++ CUSTOM_QUERY_FOLDER_NAME))) ::
        (CreateDMVFiles fs (CalculateDumpPath dumpRoot servername) queryError
          responseString version).1,
       (CreateDMVFiles fs (CalculateDumpPath dumpRoot servername) queryError
          responseString version).2) := by
  have h1 : CreateCustomQueriesDir fs customQueries
      (CalculateDumpPath dumpRoot servername) =
      ([Event.log ("mkdir failed for " ++
          (CalculateDumpPath dumpRoot servername ++ LINUX_PATH_DELIM ++
            CUSTOM_QUERY_FOLDER_NAME) ++ "- " ++
          strerror (fs.mkdirErrno (CalculateDumpPath dumpRoot servername ++
            LINUX_PATH_DELIM ++ CUSTOM_QUERY_FOLDER_NAME)))], false) := by
    simp only [CreateCustomQueriesDir, if_neg hcust]
  refine ⟨h1, ?_⟩
  simp only [CreateDbfsFiles, if_pos hroot, h1, seqE]
  simp

/-- Witness for C7 at a concrete scenario where only the custom-query mkdir
fails. -/
theorem C7_witness :
    CreateCustomQueriesDir fsCustomFail ["q1"]
        (CalculateDumpPath "/d/" "s1") =
      ([Event.log ("mkdir failed for " ++
          (CalculateDumpPath "/d/" "s1" ++ LINUX_PATH_DELIM ++
            CUSTOM_QUERY_FOLDER_NAME) ++ "- " ++
          strerror (fsCustomFail.mkdirErrno (CalculateDumpPath "/d/" "s1" ++
            LINUX_PATH_DELIM ++ CUSTOM_QUERY_FOLDER_NAME)))], false) ∧
    CreateDbfsFiles fsCustomFail "/d/" ["q1"] "s1" false "ColumnName\na\nb"
        15 =
      (Event.log ("mkdir failed for " ++
          (CalculateDumpPath "/d/" "s1" ++ LINUX_PATH_DELIM ++
            CUSTOM_QUERY_FOLDER_NAME) ++ "- " ++
          strerror (fsCustomFail.mkdirErrno (CalculateDumpPath "/d/" "s1" ++
            LINUX_PATH_DELIM ++ CUSTOM_QUERY_FOLDER_NAME))) ::
        (CreateDMVFiles fsCustomFail (CalculateDumpPath "/d/" "s1") false
          "ColumnName\na\nb" 15).1,
       (CreateDMVFiles fsCustomFail (CalculateDumpPath "/d/" "s1") false
          "ColumnName\na\nb" 15).2) :=
  C7_custom_dir_failure_nonfatal fsCustomFail "/d/" ["q1"] "s1" false
    "ColumnName\na\nb" 15 (by decide) (by decide)
